import Mathlib

/-!
Verification of the `PooledScreens` run-registry and scoring orchestration of
`screenpro/assays.py` (ScreenPro2), via a shallow embedding in Lean 4.

The repository source under inspection is `src/screenpro/assays.py`.  The two
helpers it imports, `runPhenoScore` (from `screenpro/phenoscore.py`) and
`ann_score_df` (from `screenpro/utils.py`), are not part of the provided
source tree: `runPhenoScore` is treated as an abstract oracle parameter
(`core : PhenoCall -> String × DF`), since the claims about it only concern
which calls `assays.py` makes and with which arguments; `ann_score_df` is
modelled from the spec (see its doc comment).

Pandas data frames are modelled by `DF`: an index column plus named data
columns, with exact rational cell values (no floating point).  Python dicts
are modelled as association lists preserving insertion order, Python lists as
Lean lists.  A method that can raise is modelled with `Except`/error codes;
since a raised Python exception leaves earlier attribute mutations in place,
the scoring methods return the (possibly partially mutated) final state
together with an optional error.
-/

set_option maxHeartbeats 1000000

namespace ScreenPro

/-- A data-frame cell: either a string (e.g. a target name) or an exact
rational number (scores, p-values). -/
inductive Cell where
  | str : String → Cell
  | num : ℚ → Cell
deriving DecidableEq, Repr

/-- A pandas-style data frame: a row index, a list of column names, and rows
whose cells are positionally aligned with `cols`. -/
structure DF where
  idx : List Cell
  cols : List String
  rows : List (List Cell)
deriving DecidableEq, Repr

/-- Column position lookup, first occurrence (as pandas does for unique
column labels). -/
def DF.colPos (df : DF) (c : String) : Option Nat :=
  df.cols.findIdx? (fun x => x == c)

/-- `df.loc[:, keep]`: select the named columns, in the given order.  Raises
`KeyError` (modelled as `Except.error`) when a requested column is absent. -/
def selectCols (df : DF) (keep : List String) : Except String DF :=
  if keep.all (fun k => (df.colPos k).isSome) then
    Except.ok
      { idx := df.idx,
        cols := keep,
        rows := df.rows.map (fun r =>
          keep.map (fun k => r.getD ((df.colPos k).getD 0) (Cell.str ""))) }
  else
    Except.error "KeyError"

/-- `df.set_index(c)`: move column `c` into the index.  Raises `KeyError`
when `c` is not a column. -/
def set_index (df : DF) (c : String) : Except String DF :=
  match df.colPos c with
  | none => Except.error c
  | some i =>
      Except.ok
        { idx := df.rows.map (fun r => r.getD i (Cell.str "")),
          cols := df.cols.eraseIdx i,
          rows := df.rows.map (fun r => r.eraseIdx i) }

/-- `df.rename(columns=\x7bold: new\x7d)`: rename matching column labels;
silently a no-op when `old` is absent (pandas semantics). -/
def renameCol (df : DF) (old new : String) : DF :=
  { df with cols := df.cols.map (fun c => if c = old then new else c) }

/-- Read a rational cell at position `i` of a row (0 when the cell is not
numeric; the well-formed paths never hit the default). -/
def cellQ (r : List Cell) (i : Nat) : ℚ :=
  match r.getD i (Cell.num 0) with
  | Cell.num x => x
  | Cell.str _ => 0

/-- Modelled from the spec: `ann_score_df` lives in `screenpro/utils.py`,
which is not included under the provided source tree.  Per spec §4.6, given a
target-indexed table with canonical `pvalue` and `score` columns it
(3) takes the control subpopulation (rows whose target index equals
`ctrl_label`), (4) standardizes every score against the control
distribution's mean and standard deviation, and (5) calls a hit when the
standardized score is at least `threshold` in absolute value AND the p-value
is below a significance cutoff (taken here as 0.05; the spec leaves the exact
cutoff open).  To stay in exact rational arithmetic the standardized score is
recorded by its square (`zscore` column holds (score − μ)² / σ², and the hit
comparison |z| ≥ threshold is performed as (score − μ)² ≥ threshold²·σ²,
which is equivalent for threshold ≥ 0).  The annotated table carries the
input columns plus the added `zscore` and `label` columns, and the input is
not mutated.  Accessing the canonical columns raises `KeyError` when they
are absent. -/
def ann_score_df (df : DF) (ctrl_label : String) (threshold : ℚ) :
    Except String DF :=
  match df.colPos "score", df.colPos "pvalue" with
  | some si, some pvi =>
      let ctrl : List ℚ :=
        (df.idx.zip df.rows).filterMap
          (fun p => if p.1 = Cell.str ctrl_label then some (cellQ p.2 si) else none)
      let n : ℚ := ctrl.length
      let mu : ℚ := if n = 0 then 0 else ctrl.sum / n
      let var : ℚ := if n = 0 then 0 else (ctrl.map (fun x => (x - mu) ^ 2)).sum / n
      Except.ok
        { idx := df.idx,
          cols := df.cols ++ ["zscore", "label"],
          rows := df.rows.map (fun r =>
            let sc := cellQ r si
            let pv := cellQ r pvi
            let zsq : ℚ := if var = 0 then 0 else (sc - mu) ^ 2 / var
            let hit : Bool :=
              decide ((sc - mu) ^ 2 ≥ threshold ^ 2 * var ∧ pv < 1 / 20)
            r ++ [Cell.num zsq, Cell.str (if hit then "hit" else "target_non_hit")]) }
  | _, _ => Except.error "KeyError"

/-- The argument tuple of one `runPhenoScore` invocation, as issued by
`assays.py` (condition pair, optional growth-rate divisor, replicate count,
transformation, statistical test, score level). -/
structure PhenoCall where
  cond1 : String
  cond2 : String
  growth_rate : Option ℚ
  n_reps : Nat
  transformation : String
  test : String
  score_level : String
deriving DecidableEq, Repr

/-- A `PhenotypeResult`: the multi-score bundle stored under one run name,
mapping a score label such as `gamma:<name>` to its score table (the
top-level keys of the `pd.concat` in the source, in insertion order). -/
abbrev PhenotypeResult := List (String × DF)

/-- The `PooledScreens` object state: the configuration fields assigned in
`__init__` plus the registry (`phenotypes` dict and `phenotype_names`
list).  The external `adata` count matrix is opaque to the claims and is
absorbed into the `core` oracle. -/
structure PooledScreens where
  transformation : String
  test : String
  n_reps : Nat
  phenotypes : List (String × PhenotypeResult)
  phenotype_names : List String
deriving DecidableEq, Repr

/-- `PooledScreens.__init__`: stores the configuration and creates the
registry empty (`phenotypes = dict()`, `phenotype_names = []`). -/
def PooledScreens.init (transformation test : String) (n_reps : Nat) :
    PooledScreens :=
  { transformation := transformation, test := test, n_reps := n_reps,
    phenotypes := [], phenotype_names := [] }

/-- Python dict assignment `d[k] = v`: replace the value in place when the
key exists, otherwise append the new binding. -/
def dictSet {α : Type} (d : List (String × α)) (k : String) (v : α) :
    List (String × α) :=
  if d.any (fun p => p.1 = k) then
    d.map (fun p => if p.1 = k then (k, v) else p)
  else d ++ [(k, v)]

/-- The source's `if not run_name: run_name = score_level` — a missing or
empty (falsy) run name defaults to the score level. -/
def resolveRunName (run_name : Option String) (score_level : String) : String :=
  match run_name with
  | none => score_level
  | some r => if r = "" then score_level else r

/-- Registry error: `ValueError` raised by the explicit checks of
`assays.py`, versus `KeyError` raised by a raw dict / column lookup.  The
payload is the offending name. -/
inductive Err where
  | valueError : String → Err
  | keyError : String → Err
deriving DecidableEq, Repr

/-- `PooledScreens._add_phenotype_results`: raises `ValueError` when the name
is already registered, otherwise appends it to `phenotype_names`. -/
def _add_phenotype_results (s : PooledScreens) (phenotype_name : String) :
    Except Err PooledScreens :=
  if phenotype_name ∈ s.phenotype_names then
    Except.error (Err.valueError phenotype_name)
  else
    Except.ok { s with phenotype_names := s.phenotype_names ++ [phenotype_name] }

/-- `PooledScreens.calculateDrugScreen`.  Issues the three `runPhenoScore`
calls (gamma: t0 → untreated with `db_untreated`; tau: t0 → treated with
`db_treated`; rho: untreated → treated with `|db_untreated − db_treated|`),
stores the concatenated result under the resolved run name, then registers
the three score names one at a time.  Returns the list of core calls issued,
the final object state (a raised error leaves the mutations already
performed in place, as in Python), and the error if one was raised. -/
def calculateDrugScreen (core : PhenoCall → String × DF) (s : PooledScreens)
    (t0 untreated treated : String) (db_untreated db_treated : ℚ)
    (score_level : String) (run_name : Option String) :
    List PhenoCall × PooledScreens × Option Err :=
  let gcall : PhenoCall :=
    ⟨t0, untreated, some db_untreated, s.n_reps, s.transformation, s.test, score_level⟩
  let tcall : PhenoCall :=
    ⟨t0, treated, some db_treated, s.n_reps, s.transformation, s.test, score_level⟩
  let rcall : PhenoCall :=
    ⟨untreated, treated, some |db_untreated - db_treated|,
      s.n_reps, s.transformation, s.test, score_level⟩
  let calls := [gcall, tcall, rcall]
  let gname := "gamma:" ++ (core gcall).1
  let tname := "tau:" ++ (core tcall).1
  let rname := "rho:" ++ (core rcall).1
  let rn := resolveRunName run_name score_level
  let result : PhenotypeResult :=
    [(gname, (core gcall).2), (tname, (core tcall).2), (rname, (core rcall).2)]
  let s1 := { s with phenotypes := dictSet s.phenotypes rn result }
  match _add_phenotype_results s1 gname with
  | Except.error e => (calls, s1, some e)
  | Except.ok s2 =>
    match _add_phenotype_results s2 tname with
    | Except.error e => (calls, s2, some e)
    | Except.ok s3 =>
      match _add_phenotype_results s3 rname with
      | Except.error e => (calls, s3, some e)
      | Except.ok s4 => (calls, s4, none)

/-- `PooledScreens.calculateFlowBasedScreen`.  Issues the single
`runPhenoScore` call (low_bin → high_bin, no growth-rate argument), stores
the result under the resolved run name, then registers the `delta:<name>`
score name. -/
def calculateFlowBasedScreen (core : PhenoCall → String × DF)
    (s : PooledScreens) (low_bin high_bin score_level : String)
    (run_name : Option String) :
    List PhenoCall × PooledScreens × Option Err :=
  let dcall : PhenoCall :=
    ⟨low_bin, high_bin, none, s.n_reps, s.transformation, s.test, score_level⟩
  let dname := "delta:" ++ (core dcall).1
  let rn := resolveRunName run_name score_level
  let s1 := { s with phenotypes := dictSet s.phenotypes rn [(dname, (core dcall).2)] }
  match _add_phenotype_results s1 dname with
  | Except.error e => ([dcall], s1, some e)
  | Except.ok s2 => ([dcall], s2, none)

/-- `PooledScreens.getPhenotypeScores`.  Checks membership of `score_name`
in `phenotype_names` (raising `ValueError` on failure), then evaluates
`ann_score_df(self.phenotypes[run_name][score_name]
.loc[:, [target_col, pvalue_column, score_column]].set_index('target')
.rename(columns=\x7bpvalue_column: 'pvalue'\x7d), ctrl_label, threshold)`.
The raw dict and column lookups raise `KeyError`.  The method only reads the
object; the state it returns is the state it was given. -/
def getPhenotypeScores (s : PooledScreens) (run_name score_name : String)
    (threshold : ℚ) (ctrl_label target_col pvalue_column score_column : String) :
    Except Err DF × PooledScreens :=
  if score_name ∈ s.phenotype_names then
    match s.phenotypes.lookup run_name with
    | none => (Except.error (Err.keyError run_name), s)
    | some pr =>
      match pr.lookup score_name with
      | none => (Except.error (Err.keyError score_name), s)
      | some df =>
        match selectCols df [target_col, pvalue_column, score_column] with
        | Except.error e => (Except.error (Err.keyError e), s)
        | Except.ok df1 =>
          match set_index df1 "target" with
          | Except.error e => (Except.error (Err.keyError e), s)
          | Except.ok df2 =>
            match ann_score_df (renameCol df2 pvalue_column "pvalue")
                ctrl_label threshold with
            | Except.error e => (Except.error (Err.keyError e), s)
            | Except.ok out => (Except.ok out, s)
  else
    (Except.error (Err.valueError score_name), s)

/-! ### Concrete fixtures for witnesses and counterexamples -/

/-- A small concrete score table with the default canonical columns produced
by the scoring pipeline (`target`, `ttest pvalue`, `score`). -/
def sampleTable : DF :=
  { idx := [Cell.num 0, Cell.num 1, Cell.num 2],
    cols := ["target", "ttest pvalue", "score"],
    rows :=
      [[Cell.str "GeneA", Cell.num (1 / 100), Cell.num 3],
       [Cell.str "GeneB", Cell.num (1 / 2), Cell.num 1],
       [Cell.str "negCtrl", Cell.num (9 / 10), Cell.num 0]] }

/-- A concrete `runPhenoScore` oracle: derives the score name from the
condition pair (the real one names scores from the compared conditions) and
returns the fixed small score table. -/
def coreA : PhenoCall → String × DF :=
  fun c => (c.cond1 ++ "_vs_" ++ c.cond2, sampleTable)

/-- A state whose registry already holds the name `tau:t0_vs_treated`, so a
drug-screen call whose gamma name is fresh hits the duplicate only at the
tau registration. -/
def sTau : PooledScreens :=
  { transformation := "log2(x+1)", test := "ttest", n_reps := 3,
    phenotypes := [], phenotype_names := ["tau:t0_vs_treated"] }

/-- A state holding a flow-screen result under run name `r`. -/
def sFlow : PooledScreens :=
  { transformation := "log2(x+1)", test := "ttest", n_reps := 3,
    phenotypes := [("r", [("delta:a_vs_b", sampleTable)])],
    phenotype_names := ["delta:a_vs_b"] }

/-- A score table with non-canonical column names. -/
def oddTable : DF :=
  { idx := [Cell.num 0],
    cols := ["tgt", "pv", "sc"],
    rows := [[Cell.str "GeneA", Cell.num (1 / 100), Cell.num 3]] }

/-- A state holding `oddTable` registered as `gamma:a_vs_b` under run
`run1`. -/
def sOdd : PooledScreens :=
  { transformation := "log2(x+1)", test := "ttest", n_reps := 3,
    phenotypes := [("run1", [("gamma:a_vs_b", oddTable)])],
    phenotype_names := ["gamma:a_vs_b"] }

/-- A state holding `sampleTable` registered as `gamma:a_vs_b` under run
`run1`. -/
def sReg : PooledScreens :=
  { transformation := "log2(x+1)", test := "ttest", n_reps := 3,
    phenotypes := [("run1", [("gamma:a_vs_b", sampleTable)])],
    phenotype_names := ["gamma:a_vs_b"] }

/-- A state where `gamma:x` is registered but no run holds it. -/
def sGhost : PooledScreens :=
  { transformation := "log2(x+1)", test := "ttest", n_reps := 3,
    phenotypes := [], phenotype_names := ["gamma:x"] }

/-- A score table with the target and score columns canonical but a
shortened p-value column name. -/
def midTable : DF :=
  { idx := [Cell.num 0],
    cols := ["target", "pv", "score"],
    rows := [[Cell.str "GeneA", Cell.num 1, Cell.num 3]] }

/-- A state holding `midTable` registered as `rho:a_vs_b` under run
`run1`. -/
def sMid : PooledScreens :=
  { transformation := "log2(x+1)", test := "ttest", n_reps := 3,
    phenotypes := [("run1", [("rho:a_vs_b", midTable)])],
    phenotype_names := ["rho:a_vs_b"] }

/-! ### Characterization lemmas (shared helpers) -/

/-- Helper: a column position exists exactly when the column name is
present. -/
theorem colPos_isSome (df : DF) (k : String) :
    (df.colPos k).isSome = true ↔ k ∈ df.cols := by
  simp [DF.colPos, List.findIdx?_isSome, List.any_eq_true]

/-- Full case analysis of `calculateDrugScreen`: the three core calls are
always issued, `phenotypes` is always updated under the resolved run name,
and the gamma/tau/rho names are checked and appended one at a time in that
order. -/
theorem calculateDrugScreen_cases (core : PhenoCall → String × DF)
    (s : PooledScreens) (t0 untreated treated : String)
    (db_untreated db_treated : ℚ) (score_level : String)
    (run_name : Option String) :
    calculateDrugScreen core s t0 untreated treated db_untreated db_treated
        score_level run_name =
      (let gcall : PhenoCall :=
        ⟨t0, untreated, some db_untreated, s.n_reps, s.transformation, s.test, score_level⟩
       let tcall : PhenoCall :=
        ⟨t0, treated, some db_treated, s.n_reps, s.transformation, s.test, score_level⟩
       let rcall : PhenoCall :=
        ⟨untreated, treated, some |db_untreated - db_treated|,
          s.n_reps, s.transformation, s.test, score_level⟩
       let gname := "gamma:" ++ (core gcall).1
       let tname := "tau:" ++ (core tcall).1
       let rname := "rho:" ++ (core rcall).1
       let ph := dictSet s.phenotypes (resolveRunName run_name score_level)
         [(gname, (core gcall).2), (tname, (core tcall).2), (rname, (core rcall).2)]
       if gname ∈ s.phenotype_names then
         ([gcall, tcall, rcall], { s with phenotypes := ph },
           some (Err.valueError gname))
       else if tname ∈ s.phenotype_names ++ [gname] then
         ([gcall, tcall, rcall],
           { s with phenotypes := ph,
                    phenotype_names := s.phenotype_names ++ [gname] },
           some (Err.valueError tname))
       else if rname ∈ s.phenotype_names ++ [gname, tname] then
         ([gcall, tcall, rcall],
           { s with phenotypes := ph,
                    phenotype_names := s.phenotype_names ++ [gname, tname] },
           some (Err.valueError rname))
       else
         ([gcall, tcall, rcall],
           { s with phenotypes := ph,
                    phenotype_names := s.phenotype_names ++ [gname, tname, rname] },
           none)) := by
  simp only [calculateDrugScreen, _add_phenotype_results]
  split_ifs <;> simp_all [List.append_assoc]

/-- Full case analysis of `calculateFlowBasedScreen`. -/
theorem calculateFlowBasedScreen_cases (core : PhenoCall → String × DF)
    (s : PooledScreens) (low_bin high_bin score_level : String)
    (run_name : Option String) :
    calculateFlowBasedScreen core s low_bin high_bin score_level run_name =
      (let dcall : PhenoCall :=
        ⟨low_bin, high_bin, none, s.n_reps, s.transformation, s.test, score_level⟩
       let dname := "delta:" ++ (core dcall).1
       let ph := dictSet s.phenotypes (resolveRunName run_name score_level)
         [(dname, (core dcall).2)]
       if dname ∈ s.phenotype_names then
         ([dcall], { s with phenotypes := ph }, some (Err.valueError dname))
       else
         ([dcall],
           { s with phenotypes := ph,
                    phenotype_names := s.phenotype_names ++ [dname] },
           none)) := by
  simp only [calculateFlowBasedScreen, _add_phenotype_results]
  split_ifs <;> simp_all

/-- Helper: a Python dict assignment under key `rn` does not change the
binding of any other key. -/
theorem lookup_dictSet_ne {α : Type} (d : List (String × α)) (k rn : String)
    (v : α) (h : k ≠ rn) : (dictSet d rn v).lookup k = d.lookup k := by
  unfold dictSet
  split_ifs with hmem
  · clear hmem
    induction d with
    | nil => rfl
    | cons p tl ih =>
      obtain ⟨a, b⟩ := p
      rw [List.map_cons]
      by_cases ha : a = rn
      · subst ha
        rw [if_pos rfl]
        have hb : (k == a) = false := beq_eq_false_iff_ne.mpr h
        simp [List.lookup, hb, ih]
      · rw [if_neg ha]
        cases hk : k == a with
        | true => simp [List.lookup, hk]
        | false => simp [List.lookup, hk, ih]
  · clear hmem
    have hb : (k == rn) = false := beq_eq_false_iff_ne.mpr h
    induction d with
    | nil => simp [List.lookup, hb]
    | cons p tl ih =>
      obtain ⟨a, b⟩ := p
      cases hk : k == a with
      | true => simp [List.lookup, hk]
      | false => simp [List.lookup, hk, ih]

/-! ### Claim theorems -/

/-- C6: `calculateDrugScreen` performs exactly three PhenoScore core
computations — gamma from t0 to untreated with growth rate `db_untreated`,
tau from t0 to treated with growth rate `db_treated`, and rho from untreated
to treated with growth rate `|db_untreated − db_treated|` — all with the
object's stored `n_reps`, `transformation`, and `test`. -/
theorem C6_drug_three_core_calls (core : PhenoCall → String × DF)
    (s : PooledScreens) (t0 untreated treated : String)
    (db_untreated db_treated : ℚ) (score_level : String)
    (run_name : Option String) :
    (calculateDrugScreen core s t0 untreated treated db_untreated db_treated
        score_level run_name).1 =
      [⟨t0, untreated, some db_untreated, s.n_reps, s.transformation, s.test, score_level⟩,
       ⟨t0, treated, some db_treated, s.n_reps, s.transformation, s.test, score_level⟩,
       ⟨untreated, treated, some |db_untreated - db_treated|,
         s.n_reps, s.transformation, s.test, score_level⟩] := by
  simp only [calculateDrugScreen_cases]
  split_ifs <;> rfl

/-- C7: when the two doubling rates are equal, the rho core computation is
passed a growth-rate divisor of exactly 0 (no sentinel, no error, no guarded
minimum): the three growth rates passed are `db`, `db`, and `0`. -/
theorem C7_rho_growth_rate_zero (core : PhenoCall → String × DF)
    (s : PooledScreens) (t0 untreated treated : String) (db : ℚ)
    (score_level : String) (run_name : Option String) :
    ((calculateDrugScreen core s t0 untreated treated db db score_level
        run_name).1).map PhenoCall.growth_rate = [some db, some db, some 0] := by
  simp only [calculateDrugScreen_cases]
  split_ifs <;> simp

/-- C1 counterexample: the claim that a duplicate among the gamma/tau/rho
names leaves the registry untouched is false — on a state already holding
`tau:t0_vs_treated`, the drug-screen call raises, yet the `phenotypes` dict
has gained the run entry and `phenotype_names` has gained the gamma name. -/
theorem C1_atomicity_counterexample :
    ((calculateDrugScreen coreA sTau "t0" "unt" "treated" 1 2 "sg" none).2.2).isSome = true ∧
    (calculateDrugScreen coreA sTau "t0" "unt" "treated" 1 2 "sg" none).2.1.phenotype_names ≠
      sTau.phenotype_names ∧
    ((calculateDrugScreen coreA sTau "t0" "unt" "treated" 1 2 "sg" none).2.1.phenotypes.map
        Prod.fst) ≠ sTau.phenotypes.map Prod.fst := by
  decide

/-- C1 amended: a scoring call is not atomic — when `calculateDrugScreen`
raises on a duplicate name, the `phenotypes` mapping has already been
updated under the resolved run name with the full gamma/tau/rho bundle, and
exactly the score names preceding the first duplicate (none, the gamma name,
or the gamma and tau names) have been appended to `phenotype_names`. -/
theorem C1_partial_registration (core : PhenoCall → String × DF)
    (s : PooledScreens) (t0 untreated treated : String)
    (db_untreated db_treated : ℚ) (score_level : String)
    (run_name : Option String)
    (h : ((calculateDrugScreen core s t0 untreated treated db_untreated
        db_treated score_level run_name).2.2).isSome = true) :
    (calculateDrugScreen core s t0 untreated treated db_untreated db_treated
        score_level run_name).2.1.phenotypes =
      dictSet s.phenotypes (resolveRunName run_name score_level)
        [("gamma:" ++ (core ⟨t0, untreated, some db_untreated, s.n_reps,
            s.transformation, s.test, score_level⟩).1,
          (core ⟨t0, untreated, some db_untreated, s.n_reps, s.transformation,
            s.test, score_level⟩).2),
         ("tau:" ++ (core ⟨t0, treated, some db_treated, s.n_reps,
            s.transformation, s.test, score_level⟩).1,
          (core ⟨t0, treated, some db_treated, s.n_reps, s.transformation,
            s.test, score_level⟩).2),
         ("rho:" ++ (core ⟨untreated, treated, some |db_untreated - db_treated|,
            s.n_reps, s.transformation, s.test, score_level⟩).1,
          (core ⟨untreated, treated, some |db_untreated - db_treated|, s.n_reps,
            s.transformation, s.test, score_level⟩).2)] ∧
    ((calculateDrugScreen core s t0 untreated treated db_untreated db_treated
        score_level run_name).2.1.phenotype_names = s.phenotype_names ∨
     (calculateDrugScreen core s t0 untreated treated db_untreated db_treated
        score_level run_name).2.1.phenotype_names =
       s.phenotype_names ++
         ["gamma:" ++ (core ⟨t0, untreated, some db_untreated, s.n_reps,
            s.transformation, s.test, score_level⟩).1] ∨
     (calculateDrugScreen core s t0 untreated treated db_untreated db_treated
        score_level run_name).2.1.phenotype_names =
       s.phenotype_names ++
         ["gamma:" ++ (core ⟨t0, untreated, some db_untreated, s.n_reps,
            s.transformation, s.test, score_level⟩).1,
          "tau:" ++ (core ⟨t0, treated, some db_treated, s.n_reps,
            s.transformation, s.test, score_level⟩).1]) := by
  simp only [calculateDrugScreen_cases] at h ⊢
  split_ifs at h ⊢ <;> simp_all

/-- C1 witness: the amended theorem applied at the concrete duplicate-tau
input. -/
theorem C1_partial_registration_witness :
    (calculateDrugScreen coreA sTau "t0" "unt" "treated" 1 2 "sg" none).2.1.phenotype_names =
        sTau.phenotype_names ∨
    (calculateDrugScreen coreA sTau "t0" "unt" "treated" 1 2 "sg" none).2.1.phenotype_names =
        sTau.phenotype_names ++ ["gamma:t0_vs_unt"] ∨
    (calculateDrugScreen coreA sTau "t0" "unt" "treated" 1 2 "sg" none).2.1.phenotype_names =
        sTau.phenotype_names ++ ["gamma:t0_vs_unt", "tau:t0_vs_treated"] :=
  (C1_partial_registration coreA sTau "t0" "unt" "treated" 1 2 "sg" none (by decide)).2

/-- C2: registering a score name already present in `phenotype_names` raises
a hard error, regardless of which run_name the new registration is under —
both for any of the three drug-screen names and for the flow-screen name. -/
theorem C2_duplicate_name_hard_error (core : PhenoCall → String × DF)
    (s : PooledScreens) (t0 untreated treated low_bin high_bin : String)
    (db_untreated db_treated : ℚ) (score_level : String)
    (run_name : Option String) (name : String)
    (h : name ∈ s.phenotype_names) :
    ((name = "gamma:" ++ (core ⟨t0, untreated, some db_untreated, s.n_reps,
          s.transformation, s.test, score_level⟩).1 ∨
      name = "tau:" ++ (core ⟨t0, treated, some db_treated, s.n_reps,
          s.transformation, s.test, score_level⟩).1 ∨
      name = "rho:" ++ (core ⟨untreated, treated,
          some |db_untreated - db_treated|, s.n_reps, s.transformation,
          s.test, score_level⟩).1) →
      ((calculateDrugScreen core s t0 untreated treated db_untreated
          db_treated score_level run_name).2.2).isSome = true) ∧
    (name = "delta:" ++ (core ⟨low_bin, high_bin, none, s.n_reps,
        s.transformation, s.test, score_level⟩).1 →
      ((calculateFlowBasedScreen core s low_bin high_bin score_level
          run_name).2.2).isSome = true) := by
  simp only [calculateDrugScreen_cases, calculateFlowBasedScreen_cases]
  constructor
  · intro hd
    split_ifs with h1 h2 h3
    · rfl
    · rfl
    · rfl
    · rcases hd with rfl | rfl | rfl
      · exact absurd h h1
      · exact absurd (List.mem_append_left _ h) h2
      · exact absurd (List.mem_append_left _ h) h3
  · intro hd
    split_ifs with h1
    · rfl
    · subst hd
      exact absurd h h1

/-- C2 witness: the duplicate `tau:t0_vs_treated` makes the concrete
drug-screen call fail, under a run name different from the original. -/
theorem C2_duplicate_name_hard_error_witness :
    ((calculateDrugScreen coreA sTau "t0" "unt" "treated" 1 2 "sg"
        (some "other_run")).2.2).isSome = true :=
  (C2_duplicate_name_hard_error coreA sTau "t0" "unt" "treated" "lo" "hi" 1 2
      "sg" (some "other_run") "tau:t0_vs_treated" (by decide)).1
    (Or.inr (Or.inl (by decide)))

/-- C3 counterexample: a successful scoring call can replace an existing
registry entry — re-running a flow screen under the already-used run name
`r` succeeds (fresh score name) and overwrites the `PhenotypeResult` stored
under `r`. -/
theorem C3_entry_replaced_counterexample :
    (calculateFlowBasedScreen coreA sFlow "c" "d" "lvl" (some "r")).2.2 = none ∧
    ((calculateFlowBasedScreen coreA sFlow "c" "d" "lvl"
          (some "r")).2.1.phenotypes.lookup "r").map (fun pr => pr.map Prod.fst) ≠
      (sFlow.phenotypes.lookup "r").map (fun pr => pr.map Prod.fst) := by
  decide

/-- C3 amended: the registry is created empty at construction; scoring calls
only append to `phenotype_names` (every name present before is still
present, in order), and entries under run names other than the call's
resolved run name are untouched — but the entry under the call's own run
name is set anew, replacing any previous result stored there. -/
theorem C3_registry_append_only (tr te : String) (n : Nat)
    (core : PhenoCall → String × DF) (s : PooledScreens)
    (t0 untreated treated low_bin high_bin : String)
    (db_untreated db_treated : ℚ) (score_level : String)
    (run_name : Option String) (k : String)
    (hk : k ≠ resolveRunName run_name score_level) :
    (PooledScreens.init tr te n).phenotypes = [] ∧
    (PooledScreens.init tr te n).phenotype_names = [] ∧
    (∃ l, (calculateDrugScreen core s t0 untreated treated db_untreated
        db_treated score_level run_name).2.1.phenotype_names =
          s.phenotype_names ++ l) ∧
    (calculateDrugScreen core s t0 untreated treated db_untreated db_treated
        score_level run_name).2.1.phenotypes.lookup k =
      s.phenotypes.lookup k ∧
    (∃ l, (calculateFlowBasedScreen core s low_bin high_bin score_level
        run_name).2.1.phenotype_names = s.phenotype_names ++ l) ∧
    (calculateFlowBasedScreen core s low_bin high_bin score_level
        run_name).2.1.phenotypes.lookup k = s.phenotypes.lookup k := by
  refine ⟨rfl, rfl, ?_, ?_, ?_, ?_⟩
  · simp only [calculateDrugScreen_cases]
    split_ifs
    · exact ⟨[], by simp⟩
    · exact ⟨_, rfl⟩
    · exact ⟨_, rfl⟩
    · exact ⟨_, rfl⟩
  · simp only [calculateDrugScreen_cases]
    split_ifs <;> exact lookup_dictSet_ne _ _ _ _ hk
  · simp only [calculateFlowBasedScreen_cases]
    split_ifs
    · exact ⟨[], by simp⟩
    · exact ⟨_, rfl⟩
  · simp only [calculateFlowBasedScreen_cases]
    split_ifs <;> exact lookup_dictSet_ne _ _ _ _ hk

/-- C3 witness: the amended theorem applied at a concrete input — a foreign
run name's entry is untouched by the overwriting flow call. -/
theorem C3_registry_append_only_witness :
    (calculateFlowBasedScreen coreA sFlow "c" "d" "lvl"
        (some "r")).2.1.phenotypes.lookup "zzz" =
      sFlow.phenotypes.lookup "zzz" :=
  (C3_registry_append_only "log2(x+1)" "ttest" 3 coreA sFlow "t0" "unt"
      "treated" "c" "d" 1 2 "lvl" (some "r") "zzz" (by decide)).2.2.2.2.2

/-- Helper: the success path of `getPhenotypeScores` — when the score name
is registered, the run holds it, the literal `target` column and the named
p-value column are present, and the score column is already canonically
named `score`, the call returns (without touching the state) an annotated
table carrying exactly the canonical `pvalue`/`score` columns plus the added
`zscore`/`label` columns, indexed by the stored target values. -/
theorem getPhenotypeScores_success (s : PooledScreens)
    (run_name score_name : String) (threshold : ℚ)
    (ctrl_label pvalue_column : String) (pr : PhenotypeResult) (df : DF)
    (hreg : score_name ∈ s.phenotype_names)
    (hrun : s.phenotypes.lookup run_name = some pr)
    (hdf : pr.lookup score_name = some df)
    (ht : "target" ∈ df.cols) (hp : pvalue_column ∈ df.cols)
    (hs : "score" ∈ df.cols) (hps : pvalue_column ≠ "score") :
    ∃ out, getPhenotypeScores s run_name score_name threshold ctrl_label
        "target" pvalue_column "score" = (Except.ok out, s) ∧
      out.cols = ["pvalue", "score", "zscore", "label"] ∧
      out.idx = df.rows.map
        (fun r => r.getD ((df.colPos "target").getD 0) (Cell.str "")) := by
  have hsp : ("score" : String) ≠ pvalue_column := fun e => hps e.symm
  have h1 := (colPos_isSome df "target").mpr ht
  have h2 := (colPos_isSome df pvalue_column).mpr hp
  have h3 := (colPos_isSome df "score").mpr hs
  simp only [DF.colPos] at h1 h2 h3
  simp [getPhenotypeScores, hreg, hrun, hdf, selectCols, set_index, renameCol,
    ann_score_df, DF.colPos, h1, h2, h3, hps, hsp, List.findIdx?_cons,
    List.map_map, Function.comp]

/-- C4 counterexample: with column overrides `tgt`/`pv`/`sc` all naming
columns present in the stored table, the call does not rename to the
canonical names — it raises `KeyError` at the hardcoded `set_index('target')`
step, because after selection no column is literally named `target`. -/
theorem C4_override_counterexample :
    (getPhenotypeScores sOdd "run1" "gamma:a_vs_b" 5 "negCtrl" "tgt" "pv"
        "sc").1 = Except.error (Err.keyError "target") := by
  rfl

/-- C4 amended: the operation selects exactly the three override columns and
renames only the p-value column to `pvalue`; the index is set with the
hardcoded literal `target` and the score column keeps its caller-supplied
name — so a successful, target-indexed result needs `target_col` to be the
literal `target` and the score column to already be named `score`, in which
case the returned table is indexed by the stored target values with columns
`pvalue`, `score` plus the annotation columns. -/
theorem C4_hardcoded_target_amended (s : PooledScreens)
    (run_name score_name : String) (threshold : ℚ)
    (ctrl_label pvalue_column : String) (pr : PhenotypeResult) (df : DF)
    (hreg : score_name ∈ s.phenotype_names)
    (hrun : s.phenotypes.lookup run_name = some pr)
    (hdf : pr.lookup score_name = some df)
    (ht : "target" ∈ df.cols) (hp : pvalue_column ∈ df.cols)
    (hs : "score" ∈ df.cols) (hps : pvalue_column ≠ "score") :
    ∃ out, getPhenotypeScores s run_name score_name threshold ctrl_label
        "target" pvalue_column "score" = (Except.ok out, s) ∧
      out.cols = ["pvalue", "score", "zscore", "label"] ∧
      out.idx = df.rows.map
        (fun r => r.getD ((df.colPos "target").getD 0) (Cell.str "")) :=
  getPhenotypeScores_success s run_name score_name threshold ctrl_label
    pvalue_column pr df hreg hrun hdf ht hp hs hps

/-- C4 witness: the amended theorem at a concrete registered table whose
p-value column is named `pv`. -/
theorem C4_hardcoded_target_amended_witness :
    ∃ out, getPhenotypeScores sMid "run1" "rho:a_vs_b" 5 "negCtrl" "target"
        "pv" "score" = (Except.ok out, sMid) ∧
      out.cols = ["pvalue", "score", "zscore", "label"] ∧
      out.idx = midTable.rows.map
        (fun r => r.getD ((midTable.colPos "target").getD 0) (Cell.str "")) :=
  C4_hardcoded_target_amended sMid "run1" "rho:a_vs_b" 5 "negCtrl" "pv"
    [("rho:a_vs_b", midTable)] midTable (by decide) rfl rfl (by decide)
    (by decide) (by decide) (by decide)

/-- C5: `getPhenotypeScores` on a score name that was never registered fails
with the explicit not-found error; on a registered score name (stored under
the run, with the default column names present) it returns, leaving the
state unchanged, a table indexed by target whose columns are exactly the
p-value, score, and z-score/hit-call columns. -/
theorem C5_get_scores_contract (s : PooledScreens)
    (run_name score_name other : String) (threshold : ℚ)
    (ctrl_label : String) (pr : PhenotypeResult) (df : DF)
    (hother : other ∉ s.phenotype_names)
    (hreg : score_name ∈ s.phenotype_names)
    (hrun : s.phenotypes.lookup run_name = some pr)
    (hdf : pr.lookup score_name = some df)
    (ht : "target" ∈ df.cols) (hp : "ttest pvalue" ∈ df.cols)
    (hs : "score" ∈ df.cols) :
    (getPhenotypeScores s run_name other threshold ctrl_label "target"
        "ttest pvalue" "score").1 = Except.error (Err.valueError other) ∧
    ∃ out, getPhenotypeScores s run_name score_name threshold ctrl_label
        "target" "ttest pvalue" "score" = (Except.ok out, s) ∧
      out.cols = ["pvalue", "score", "zscore", "label"] ∧
      out.idx = df.rows.map
        (fun r => r.getD ((df.colPos "target").getD 0) (Cell.str "")) := by
  constructor
  · unfold getPhenotypeScores
    rw [if_neg hother]
  · exact getPhenotypeScores_success s run_name score_name threshold
      ctrl_label "ttest pvalue" pr df hreg hrun hdf ht hp hs (by decide)

/-- C5 witness: the contract at the concrete registered `gamma:a_vs_b`
table, with `zzz` as the never-registered name. -/
theorem C5_get_scores_contract_witness :
    (getPhenotypeScores sReg "run1" "zzz" 5 "negCtrl" "target" "ttest pvalue"
        "score").1 = Except.error (Err.valueError "zzz") :=
  (C5_get_scores_contract sReg "run1" "gamma:a_vs_b" "zzz" 5 "negCtrl"
      [("gamma:a_vs_b", sampleTable)] sampleTable (by decide) (by decide) rfl
      rfl (by decide) (by decide) (by decide)).1

/-- C8: `calculateFlowBasedScreen` performs exactly one PhenoScore core
computation from low_bin to high_bin with no growth-rate argument, stores
the single-score bundle under the resolved run name (which defaults to
score_level when run_name is unset), and registers exactly the one name
`delta:<name>` — failing with the same duplicate-name error policy as the
drug screen. -/
theorem C8_flow_contract (core : PhenoCall → String × DF) (s : PooledScreens)
    (low_bin high_bin score_level : String) (run_name : Option String) :
    (calculateFlowBasedScreen core s low_bin high_bin score_level run_name).1 =
      [⟨low_bin, high_bin, none, s.n_reps, s.transformation, s.test, score_level⟩] ∧
    (calculateFlowBasedScreen core s low_bin high_bin score_level
        run_name).2.1.phenotypes =
      dictSet s.phenotypes (resolveRunName run_name score_level)
        [("delta:" ++ (core ⟨low_bin, high_bin, none, s.n_reps,
            s.transformation, s.test, score_level⟩).1,
          (core ⟨low_bin, high_bin, none, s.n_reps, s.transformation, s.test,
            score_level⟩).2)] ∧
    resolveRunName none score_level = score_level ∧
    ("delta:" ++ (core ⟨low_bin, high_bin, none, s.n_reps, s.transformation,
        s.test, score_level⟩).1 ∈ s.phenotype_names →
      (calculateFlowBasedScreen core s low_bin high_bin score_level
          run_name).2.2 =
        some (Err.valueError ("delta:" ++ (core ⟨low_bin, high_bin, none,
          s.n_reps, s.transformation, s.test, score_level⟩).1))) ∧
    ("delta:" ++ (core ⟨low_bin, high_bin, none, s.n_reps, s.transformation,
        s.test, score_level⟩).1 ∉ s.phenotype_names →
      (calculateFlowBasedScreen core s low_bin high_bin score_level
          run_name).2.2 = none ∧
      (calculateFlowBasedScreen core s low_bin high_bin score_level
          run_name).2.1.phenotype_names =
        s.phenotype_names ++ ["delta:" ++ (core ⟨low_bin, high_bin, none,
          s.n_reps, s.transformation, s.test, score_level⟩).1]) := by
  simp only [calculateFlowBasedScreen_cases]
  refine ⟨?_, ?_, rfl, ?_, ?_⟩
  · split_ifs <;> rfl
  · split_ifs <;> rfl
  · intro hm
    rw [if_pos hm]
  · intro hm
    rw [if_neg hm]
    exact ⟨rfl, rfl⟩

/-- C8 witness: the contract at a fresh state — the call succeeds and
registers exactly `delta:lo_vs_hi`. -/
theorem C8_flow_contract_witness :
    (calculateFlowBasedScreen coreA (PooledScreens.init "log2(x+1)" "ttest" 3)
        "lo" "hi" "lvl" none).2.2 = none ∧
    (calculateFlowBasedScreen coreA (PooledScreens.init "log2(x+1)" "ttest" 3)
        "lo" "hi" "lvl" none).2.1.phenotype_names = ["delta:lo_vs_hi"] :=
  (C8_flow_contract coreA (PooledScreens.init "log2(x+1)" "ttest" 3) "lo"
      "hi" "lvl" none).2.2.2.2 (by decide)

/-- C9: `getPhenotypeScores` never mutates the registry — whether it
succeeds or fails, the state it returns is exactly the state it was given. -/
theorem C9_no_registry_mutation (s : PooledScreens)
    (run_name score_name : String) (threshold : ℚ)
    (ctrl_label target_col pvalue_column score_column : String) :
    (getPhenotypeScores s run_name score_name threshold ctrl_label target_col
        pvalue_column score_column).2 = s := by
  unfold getPhenotypeScores
  repeat' (first | rfl | split)

/-- C10: the not-found check of `getPhenotypeScores` depends only on global
membership in `phenotype_names` — for a registered score name, a run_name
whose stored result does not contain it passes the explicit check and fails
with a raw lookup `KeyError` instead (on the run name when the run is
missing, on the score name when the run lacks that score). -/
theorem C10_raw_lookup_error (s : PooledScreens)
    (run_name score_name : String) (threshold : ℚ)
    (ctrl_label target_col pvalue_column score_column : String)
    (hreg : score_name ∈ s.phenotype_names) :
    (s.phenotypes.lookup run_name = none →
      (getPhenotypeScores s run_name score_name threshold ctrl_label
          target_col pvalue_column score_column).1 =
        Except.error (Err.keyError run_name)) ∧
    (∀ pr, s.phenotypes.lookup run_name = some pr →
      pr.lookup score_name = none →
      (getPhenotypeScores s run_name score_name threshold ctrl_label
          target_col pvalue_column score_column).1 =
        Except.error (Err.keyError score_name)) := by
  constructor
  · intro hn
    unfold getPhenotypeScores
    rw [if_pos hreg, hn]
  · intro pr hsome hnone
    unfold getPhenotypeScores
    rw [if_pos hreg, hsome]
    simp only []
    rw [hnone]

/-- C10 witness: `gamma:x` is registered globally but no run holds it, so a
lookup under run `r` passes the check and fails with the raw key error. -/
theorem C10_raw_lookup_error_witness :
    (getPhenotypeScores sGhost "r" "gamma:x" 5 "negCtrl" "target"
        "ttest pvalue" "score").1 = Except.error (Err.keyError "r") :=
  (C10_raw_lookup_error sGhost "r" "gamma:x" 5 "negCtrl" "target"
      "ttest pvalue" "score" (by decide)).1 rfl

end ScreenPro
